import Mathlib

/-!
Verification of the memory-assistant program (src/GPTHistory.ts and the run
script embedded in src/README.md) against its natural-language specification.

The program is a single-shot Deno script: it loads a persisted memory blob,
asks a completion provider for a reply to the user's message (with the memory
embedded in the prompt), prints the reply, asks the provider to distill the
updated conversational state, and writes the distilled blob back to disk.

Shallow embedding conventions:
- JS strings are Lean `String`; `String.prototype.trim` is `jsTrim` below.
- The external completion endpoint is an oracle `Nat → FetchOutcome` giving,
  for each outbound call of the run (0 = primary, 1 = distillation), what the
  network and the response body look like.  The code never reads the HTTP
  status, so the status is carried in the outcome and visibly ignored.
- `memory.json` is a `FileState`: absent, present-but-unreadable, or present
  with a content string.  A failed write leaves the previous state.
- An uncaught JS exception terminates the Deno process with exit status 1;
  the embedding of the run script returns exit code 1 on those paths.
-/

set_option maxRecDepth 100000

namespace Alors

/-- JS whitespace as trimmed by `String.prototype.trim`. -/
def isJsWs (c : Char) : Bool :=
  c = ' ' || c = '\t' || c = '\n' || c = '\x0b' || c = '\x0c' || c = '\r' ||
  c = '\xa0' || c = '\u2028' || c = '\u2029' || c = '\ufeff'

/-- Embedding of `String.prototype.trim`: drop leading and trailing whitespace. -/
def jsTrim (s : String) : String :=
  String.mk (((s.data.dropWhile isJsWs).reverse.dropWhile isJsWs).reverse)

/-- Embedding of JS `Array.prototype.join`: empty list gives `""`, a singleton
gives the element, otherwise elements interleaved with the separator. -/
def joinSep (sep : String) : List String → String
  | [] => ""
  | [x] => x
  | x :: y :: xs => x ++ sep ++ joinSep sep (y :: xs)

/-- One element of the `choices` array of a parsed completion response body:
it can lack the `message` field, or carry a `message` whose `content` field
is present (`some`) or absent (`none`). -/
inductive Candidate where
  | noMessage : Candidate
  | message : Option String → Candidate
deriving DecidableEq

/-- What `JSON.parse` makes of the HTTP response body text: not JSON at all
(`JSON.parse` throws), JSON without a usable `choices` array (this is what a
non-2xx OpenAI error body looks like), or a `choices` array. -/
inductive ParsedBody where
  | notJson : ParsedBody
  | noChoices : ParsedBody
  | choices : List Candidate → ParsedBody
deriving DecidableEq

/-- Outcome of one `fetch` to the provider: the network call rejects, or an
HTTP response arrives with some status and body.  `callGPTAPI` never looks at
the status. -/
inductive FetchOutcome where
  | netFail : FetchOutcome
  | response : Nat → ParsedBody → FetchOutcome
deriving DecidableEq

/-- The JS exception kinds the completion path can raise: `fetch` rejecting
(network error), `JSON.parse` throwing (syntax error), and reading a property
of `undefined` (type error). -/
inductive JsError where
  | networkError : JsError
  | syntaxError : JsError
  | typeErrorUndefined : JsError
deriving DecidableEq

/-- Embedding of `GPTHistory.callGPTAPI` (src/GPTHistory.ts): fetch, parse the
body, return `response.choices[0].message.content`.  A missing `choices`
field, an empty `choices` array, or a first candidate without `message` all
throw the same TypeError while indexing into `undefined`; a present `message`
with a missing `content` returns `undefined` (modelled `ok none`) without
throwing. -/
def callGPTAPI : FetchOutcome → Except JsError (Option String)
  | .netFail => .error .networkError
  | .response _ body =>
    match body with
    | .notJson => .error .syntaxError
    | .noChoices => .error .typeErrorUndefined
    | .choices [] => .error .typeErrorUndefined
    | .choices (.noMessage :: _) => .error .typeErrorUndefined
    | .choices (.message none :: _) => .ok none
    | .choices (.message (some s) :: _) => .ok (some s)

/-- A history entry is a JS string or `undefined` (`none`), since the code can
push an `undefined` answer into the `string[]`. -/
def renderEntry (e : Option String) : String := e.getD ""

/-- Embedding of `this.history.join("\n")`; JS `join` renders `undefined`
elements as the empty string. -/
def joinHist (h : List (Option String)) : String :=
  joinSep "\n" (h.map renderEntry)

/-- Result of one `sendSnippet` call: the value returned or exception raised,
the history array as the call leaves it, and the prompt string that was handed
to `callGPTAPI`. -/
structure SnippetResult where
  result : Except JsError String
  history : List (Option String)
  promptSent : String

/-- Embedding of `GPTHistory.sendSnippet` (src/GPTHistory.ts): push the
command, call the API on the newline-join of the whole history, push the
answer, return the trimmed answer.  If the API call throws, only the command
was pushed; if the answer is `undefined`, it is pushed before `answer.trim()`
throws. -/
def sendSnippet (o : FetchOutcome) (history : List (Option String))
    (command : String) : SnippetResult :=
  let h1 := history ++ [some command]
  let prompt := joinHist h1
  match callGPTAPI o with
  | .error e => ⟨.error e, h1, prompt⟩
  | .ok none => ⟨.error .typeErrorUndefined, h1 ++ [none], prompt⟩
  | .ok (some ans) => ⟨.ok (jsTrim ans), h1 ++ [some ans], prompt⟩

/-- State of the `memory.json` file as the run script can observe it. -/
inductive FileState where
  | absent : FileState
  | unreadable : FileState
  | content : String → FileState
deriving DecidableEq

/-- The default memory returned by `readMemory` when the read throws: the
literal string `{history:[]}` from the catch branch of the run script. -/
def defaultMemory : String := "\x7bhistory:[]\x7d"

/-- Embedding of `readMemory` (run script in src/README.md): return the file
text, or `defaultMemory` if `Deno.readTextFile` throws (file absent or
unreadable).  It never fails and never inspects the content. -/
def readMemory : FileState → String
  | .absent => defaultMemory
  | .unreadable => defaultMemory
  | .content s => s

/-- Embedding of a successful `Deno.writeTextFile("memory.json", m)`: the file
now holds exactly `m`, whatever it held before. -/
def saveMemory (m : String) (_f : FileState) : FileState := .content m

/-- Leading literal of the `assist` prompt template. -/
def assistPromptHead : String :=
  "\nYou are my personal assistant. You have a json-based memory to enrich your replies.\n\n"

/-- The labeled memory section header inside the `assist` prompt. -/
def memoryLabel : String := "This is your current memory:"

/-- The labeled message section header inside the `assist` prompt. -/
def messageLabel : String := "Here is my message to you:"

/-- Embedding of the template literal built by `assist` (run script): the
memory and the user message interpolated verbatim under their labels. -/
def assistPrompt (memory message : String) : String :=
  assistPromptHead ++ memoryLabel ++ "\n" ++ memory ++ "\n\n" ++
    messageLabel ++ "\n" ++ message ++ "\n"

/-- The literal distillation instruction of `optimizeMemory` (run script),
including its original indentation and the doubled word of the source. -/
def optimizeInstruction : String :=
  "\n  Extract and distill the the current state of conversation from the following content. Only answer with json and meaningful fields. Simplify the structure of the json. Don\x27t give explanations.\n\n  "

/-- Embedding of the template literal built by `optimizeMemory`: instruction,
then the blob verbatim, then the closing indentation. -/
def optimizePrompt (memory : String) : String :=
  optimizeInstruction ++ memory ++ "\n  "

/-- Lower-case hex digit, as produced by `JSON.stringify` control escapes. -/
def hexDigitChar (n : Nat) : Char :=
  if n < 10 then Char.ofNat (48 + n) else Char.ofNat (87 + n)

/-- How `JSON.stringify` escapes one character inside a string literal. -/
def jsonEscapeChar (c : Char) : String :=
  if c = Char.ofNat 34 then "\\\""
  else if c = Char.ofNat 92 then "\\\\"
  else if c = '\x08' then "\\b"
  else if c = '\t' then "\\t"
  else if c = '\n' then "\\n"
  else if c = '\x0c' then "\\f"
  else if c = '\r' then "\\r"
  else if c.toNat < 32 then
    "\\u00" ++ String.mk [hexDigitChar (c.toNat / 16), hexDigitChar (c.toNat % 16)]
  else String.mk [c]

/-- `JSON.stringify` of a string value. -/
def jsonQuote (s : String) : String :=
  "\"" ++ String.join (s.data.map jsonEscapeChar) ++ "\""

/-- `JSON.stringify` of the `newMemory` object literal of the run script,
with its keys in declaration order. -/
def stringifyNewMemory (memory lastUserMessage lastAssistantResponse : String) : String :=
  "\x7b\"memory\":" ++ jsonQuote memory ++
    ",\"lastUserMessage\":" ++ jsonQuote lastUserMessage ++
    ",\"lastAssistantResponse\":" ++ jsonQuote lastAssistantResponse ++ "\x7d"

/-- Observable result of one whole run of the script: the process exit code
(1 on an uncaught exception), the stdout lines in order, the final state of
`memory.json`, the prompt text of each provider call in order, and the
argument handed to `optimizeMemory` when that point is reached. -/
structure RunResult where
  exitCode : Nat
  output : List String
  file : FileState
  promptsSent : List String
  blobArg : Option String
deriving DecidableEq

/-- Embedding of the top-level run script (src/README.md): read memory, make
the assist call on a fresh shared `GPTHistory`, print the reply, stringify
the candidate blob, make the distillation call on the same history, print the
distilled blob, write it to `memory.json`.  No exception is caught, so a
failure at any step ends the process with exit code 1 then and there;
`writeOk` says whether `Deno.writeTextFile` would succeed. -/
def run (provider : Nat → FetchOutcome) (writeOk : Bool) (f0 : FileState)
    (argMessage : String) : RunResult :=
  let memory := readMemory f0
  let r1 := sendSnippet (provider 0) [] (assistPrompt memory argMessage)
  match r1.result with
  | .error _ => ⟨1, [], f0, [r1.promptSent], none⟩
  | .ok response =>
    let blob := stringifyNewMemory memory argMessage response
    let r2 := sendSnippet (provider 1) r1.history (optimizePrompt blob)
    match r2.result with
    | .error _ => ⟨1, [response], f0, [r1.promptSent, r2.promptSent], some blob⟩
    | .ok opt0 =>
      let optimizedMemory := jsTrim opt0
      let outs := [response, "\x1b[34m " ++ optimizedMemory]
      if writeOk then
        ⟨0, outs, saveMemory optimizedMemory f0, [r1.promptSent, r2.promptSent], some blob⟩
      else
        ⟨1, outs, f0, [r1.promptSent, r2.promptSent], some blob⟩

/-- The spec words its prompt-content requirements as substring containment;
`containsStr s sub` says `sub` occurs contiguously inside `s`. -/
def containsStr (s sub : String) : Prop :=
  ∃ a b : String, s = a ++ (sub ++ b)

/-- JSON insignificant whitespace (RFC 8259). -/
def jsonWsChar (c : Char) : Bool :=
  c = ' ' || c = '\t' || c = '\n' || c = '\r'

/-- Drop leading JSON whitespace. -/
def skipWs (s : List Char) : List Char := s.dropWhile jsonWsChar

/-- Hex digit as allowed in a JSON `\u` escape. -/
def isHexDigitChar (c : Char) : Bool :=
  c.isDigit || ( 'a' ≤ c && c ≤ 'f' ) || ( 'A' ≤ c && c ≤ 'F' )

/-- Require the input to start with the given literal characters. -/
def expectLit : List Char → List Char → Option (List Char)
  | [], s => some s
  | _, [] => none
  | p :: ps, c :: cs => if p = c then expectLit ps cs else none

/-- Parse the remainder of a JSON string after its opening quote, returning
the input after the closing quote. -/
def parseStringBody : Nat → List Char → Option (List Char)
  | 0, _ => none
  | _ + 1, [] => none
  | fuel + 1, c :: rest =>
    if c = Char.ofNat 34 then some rest
    else if c = Char.ofNat 92 then
      match rest with
      | [] => none
      | e :: rest2 =>
        if e = 'u' then
          match rest2 with
          | a :: b :: c2 :: d :: rest3 =>
            if isHexDigitChar a && isHexDigitChar b && isHexDigitChar c2 &&
                isHexDigitChar d then
              parseStringBody fuel rest3
            else none
          | _ => none
        else if e = Char.ofNat 34 || e = Char.ofNat 92 || e = '/' || e = 'b' ||
            e = 'f' || e = 'n' || e = 'r' || e = 't' then
          parseStringBody fuel rest2
        else none
    else if c.toNat < 32 then none
    else parseStringBody fuel rest

/-- Parse one or more decimal digits. -/
def parseDigits1 (s : List Char) : Option (List Char) :=
  if (s.takeWhile Char.isDigit).isEmpty then none
  else some (s.dropWhile Char.isDigit)

/-- Parse the integer part of a JSON number: `0`, or a nonzero digit followed
by digits. -/
def parseIntPart : List Char → Option (List Char)
  | [] => none
  | c :: r =>
    if c = '0' then some r
    else if c.isDigit then some (r.dropWhile Char.isDigit)
    else none

/-- Parse an optional JSON fraction part. -/
def parseFracPart : List Char → Option (List Char)
  | [] => some []
  | c :: r => if c = '.' then parseDigits1 r else some (c :: r)

/-- Parse an optional JSON exponent part. -/
def parseExpPart : List Char → Option (List Char)
  | [] => some []
  | c :: r =>
    if c = 'e' || c = 'E' then
      match r with
      | d :: r2 => if d = '+' || d = '-' then parseDigits1 r2 else parseDigits1 (d :: r2)
      | [] => none
    else some (c :: r)

/-- Parse a JSON number. -/
def parseNumber (s : List Char) : Option (List Char) := do
  let s1 := match s with
    | c :: r => if c = '-' then r else c :: r
    | [] => []
  let s2 ← parseIntPart s1
  let s3 ← parseFracPart s2
  parseExpPart s3

/-- What the grammar walker is currently parsing: one value, the members of
an object after `{`, or the items of an array after `[`. -/
inductive JsonMode where
  | value : JsonMode
  | members : JsonMode
  | items : JsonMode

/-- Fuel-bounded recursive-descent walker for the JSON value grammar of
RFC 8259; returns the unconsumed input on success. -/
def parseJ : Nat → JsonMode → List Char → Option (List Char)
  | 0, _, _ => none
  | fuel + 1, .value, s0 =>
    match skipWs s0 with
    | [] => none
    | c :: rest =>
      if c = Char.ofNat 123 then
        match skipWs rest with
        | [] => none
        | d :: r2 => if d = Char.ofNat 125 then some r2 else parseJ fuel .members (d :: r2)
      else if c = '[' then
        match skipWs rest with
        | [] => none
        | d :: r2 => if d = ']' then some r2 else parseJ fuel .items (d :: r2)
      else if c = Char.ofNat 34 then parseStringBody (rest.length + 1) rest
      else if c = 't' then expectLit [ 'r', 'u', 'e' ] rest
      else if c = 'f' then expectLit [ 'a', 'l', 's', 'e' ] rest
      else if c = 'n' then expectLit [ 'u', 'l', 'l' ] rest
      else if c = '-' || c.isDigit then parseNumber (c :: rest)
      else none
  | fuel + 1, .members, s =>
    match skipWs s with
    | [] => none
    | c :: rest =>
      if c = Char.ofNat 34 then
        match parseStringBody (rest.length + 1) rest with
        | none => none
        | some r2 =>
          match skipWs r2 with
          | [] => none
          | d :: r3 =>
            if d = ':' then
              match parseJ fuel .value r3 with
              | none => none
              | some r4 =>
                match skipWs r4 with
                | [] => none
                | e :: r5 =>
                  if e = ',' then parseJ fuel .members r5
                  else if e = Char.ofNat 125 then some r5
                  else none
            else none
      else none
  | fuel + 1, .items, s =>
    match parseJ fuel .value s with
    | none => none
    | some r1 =>
      match skipWs r1 with
      | [] => none
      | c :: r2 =>
        if c = ',' then parseJ fuel .items r2
        else if c = ']' then some r2
        else none

/-- A string is syntactically valid JSON when the walker consumes exactly one
value and only whitespace remains. -/
def jsonValid (s : String) : Bool :=
  match parseJ (2 * s.data.length + 4) .value s.data with
  | some rest => (skipWs rest).isEmpty
  | none => false

/-- Sanity check of the validator on the smallest JSON object. -/
theorem jsonValid_accepts_empty_object : jsonValid "\x7b\x7d" = true := by decide

/-- Sanity check of the validator on a nested object and array. -/
theorem jsonValid_accepts_nested :
    jsonValid "\x7b\"a\":[1,2,3],\"b\":\"x\"\x7d" = true := by decide

/-- Sanity check of the validator on numbers, literals and escapes. -/
theorem jsonValid_accepts_scalars :
    jsonValid "[1.5e-3,true,null,\"a\\u00ff\"]" = true := by decide

/-- Sanity: the split pieces of `assistPrompt` reassemble the exact template
literal of `assist` in the run script. -/
theorem assistPrompt_eq_template :
    assistPrompt "MEM" "MSG" = "\nYou are my personal assistant. You have a json-based memory to enrich your replies.\n\nThis is your current memory:\nMEM\n\nHere is my message to you:\nMSG\n" := by
  decide

/-- Sanity: `optimizePrompt` reassembles the exact template literal of
`optimizeMemory` in the run script. -/
theorem optimizePrompt_eq_template :
    optimizePrompt "BLOB" = "\n  Extract and distill the the current state of conversation from the following content. Only answer with json and meaningful fields. Simplify the structure of the json. Don\x27t give explanations.\n\n  BLOB\n  " := by
  decide

/-- Substring containment is transitive. -/
theorem containsStr_trans {s t u : String} (h1 : containsStr s t)
    (h2 : containsStr t u) : containsStr s u := by
  obtain ⟨a, b, rfl⟩ := h1
  obtain ⟨c, d, rfl⟩ := h2
  exact ⟨a ++ c, d ++ b, by simp [String.append_assoc]⟩

/-- A provider that always answers with one well-formed candidate. -/
def okProvider (reply : String) : Nat → FetchOutcome :=
  fun _ => .response 200 (.choices [.message (some reply)])

/-- A provider whose network is down for every call. -/
def failProvider : Nat → FetchOutcome := fun _ => .netFail

/-- A provider that answers the primary call and then loses the network, so
the distillation call fails. -/
def distillFailProvider : Nat → FetchOutcome :=
  fun n => match n with
    | 0 => .response 200 (.choices [.message (some "ok")])
    | _ => .netFail

/-- Claim C10: a successful `sendSnippet` call appends exactly two entries to
the history — the command, then the provider's answer with its original
whitespace — and returns the trimmed answer to the caller. -/
theorem sendSnippet_appends_command_and_raw_answer
    (o : FetchOutcome) (h : List (Option String)) (c ans : String)
    (hs : callGPTAPI o = Except.ok (some ans)) :
    (sendSnippet o h c).history = h ++ [some c, some ans] ∧
    (sendSnippet o h c).result = Except.ok (jsTrim ans) := by
  simp [sendSnippet, hs]

/-- Witness for C10 at a concrete call: the raw answer `"  Hi "` is stored in
the history untrimmed while the caller receives `"Hi"`. -/
theorem sendSnippet_appends_command_and_raw_answer_witness :
    (sendSnippet (FetchOutcome.response 200
        (ParsedBody.choices [Candidate.message (some "  Hi ")])) [] "cmd").history =
      [some "cmd", some "  Hi "] ∧
    (sendSnippet (FetchOutcome.response 200
        (ParsedBody.choices [Candidate.message (some "  Hi ")])) [] "cmd").result =
      Except.ok "Hi" :=
  sendSnippet_appends_command_and_raw_answer
    (FetchOutcome.response 200 (ParsedBody.choices [Candidate.message (some "  Hi ")]))
    [] "cmd" "  Hi " rfl

/-- Claim C4: whenever the provider response is successful — its first
candidate carries content `s` — the completion call returns `s` trimmed of
leading and trailing whitespace. -/
theorem sendSnippet_first_candidate_trimmed
    (st : Nat) (cs : List Candidate) (h : List (Option String)) (c s : String)
    (hfirst : cs.head? = some (Candidate.message (some s))) :
    (sendSnippet (FetchOutcome.response st (ParsedBody.choices cs)) h c).result =
      Except.ok (jsTrim s) := by
  cases cs with
  | nil => simp at hfirst
  | cons hd tl =>
    simp [List.head?] at hfirst
    subst hfirst
    simp [sendSnippet, callGPTAPI]

/-- Witness for C4: a two-candidate response returns the first candidate's
content trimmed, ignoring the second candidate. -/
theorem sendSnippet_first_candidate_trimmed_witness :
    (sendSnippet (FetchOutcome.response 200 (ParsedBody.choices
        [Candidate.message (some " first "), Candidate.message (some "second")]))
      [] "cmd").result = Except.ok "first" :=
  sendSnippet_first_candidate_trimmed 200
    [Candidate.message (some " first "), Candidate.message (some "second")]
    [] "cmd" " first " rfl

/-- Counterexample to claim C3: the failure modes are not distinct — a non-2xx
response (whose error body has no `choices`) and a 200 response with an empty
candidate list surface as the very same TypeError. -/
theorem callGPTAPI_failures_not_distinct_cex :
    callGPTAPI (FetchOutcome.response 500 ParsedBody.noChoices) =
      callGPTAPI (FetchOutcome.response 200 (ParsedBody.choices [])) ∧
    callGPTAPI (FetchOutcome.response 500 ParsedBody.noChoices) =
      Except.error JsError.typeErrorUndefined := ⟨rfl, rfl⟩

/-- Claim C3 as amended: every failing completion call surfaces as a
catchable exception rather than a silent crash, but only the network and
JSON-syntax failures are distinct kinds; a missing `choices` field and an
empty candidate list both raise the same generic TypeError. -/
theorem sendSnippet_failures_catchable
    (o : FetchOutcome) (h : List (Option String)) (c : String)
    (hfail : ∀ s, callGPTAPI o ≠ Except.ok (some s)) :
    ∃ e, (sendSnippet o h c).result = Except.error e ∧
      (o = FetchOutcome.netFail → e = JsError.networkError) ∧
      (∀ st, o = FetchOutcome.response st ParsedBody.notJson →
        e = JsError.syntaxError) ∧
      (∀ st, o = FetchOutcome.response st ParsedBody.noChoices →
        e = JsError.typeErrorUndefined) ∧
      (∀ st, o = FetchOutcome.response st (ParsedBody.choices []) →
        e = JsError.typeErrorUndefined) := by
  rcases o with _ | ⟨st, body⟩
  · exact ⟨JsError.networkError, by simp [sendSnippet, callGPTAPI],
      by simp, by simp, by simp, by simp⟩
  · rcases body with _ | _ | cs
    · exact ⟨JsError.syntaxError, by simp [sendSnippet, callGPTAPI],
        by simp, by simp, by simp, by simp⟩
    · exact ⟨JsError.typeErrorUndefined, by simp [sendSnippet, callGPTAPI],
        by simp, by simp, by simp, by simp⟩
    · rcases cs with _ | ⟨cand, tl⟩
      · exact ⟨JsError.typeErrorUndefined, by simp [sendSnippet, callGPTAPI],
          by simp, by simp, by simp, by simp⟩
      · rcases cand with _ | oc
        · exact ⟨JsError.typeErrorUndefined, by simp [sendSnippet, callGPTAPI],
            by simp, by simp, by simp, by simp⟩
        · rcases oc with _ | s
          · exact ⟨JsError.typeErrorUndefined, by simp [sendSnippet, callGPTAPI],
              by simp, by simp, by simp, by simp⟩
          · exact absurd rfl (hfail s)

/-- Witness for the amended C3 at a concrete failing call (a 404 whose body
has no `choices`): the call yields a catchable TypeError. -/
theorem sendSnippet_failures_catchable_witness :
    ∃ e, (sendSnippet (FetchOutcome.response 404 ParsedBody.noChoices) [] "cmd").result =
        Except.error e ∧
      (FetchOutcome.response 404 ParsedBody.noChoices = FetchOutcome.netFail →
        e = JsError.networkError) ∧
      (∀ st, FetchOutcome.response 404 ParsedBody.noChoices =
          FetchOutcome.response st ParsedBody.notJson → e = JsError.syntaxError) ∧
      (∀ st, FetchOutcome.response 404 ParsedBody.noChoices =
          FetchOutcome.response st ParsedBody.noChoices →
        e = JsError.typeErrorUndefined) ∧
      (∀ st, FetchOutcome.response 404 ParsedBody.noChoices =
          FetchOutcome.response st (ParsedBody.choices []) →
        e = JsError.typeErrorUndefined) :=
  sendSnippet_failures_catchable (FetchOutcome.response 404 ParsedBody.noChoices)
    [] "cmd" (fun s hcontra => by simp [callGPTAPI] at hcontra)

/-- Claim C2: if the primary completion call fails, the memory file is left
exactly as it was, nothing is printed, and the process exits nonzero. -/
theorem run_primary_failure_no_mutation
    (provider : Nat → FetchOutcome) (writeOk : Bool) (f0 : FileState) (msg : String)
    (h1 : ∀ s, callGPTAPI (provider 0) ≠ Except.ok (some s)) :
    (run provider writeOk f0 msg).file = f0 ∧
    (run provider writeOk f0 msg).output = [] ∧
    (run provider writeOk f0 msg).exitCode = 1 := by
  rcases ho : callGPTAPI (provider 0) with e | v
  · simp [run, sendSnippet, ho]
  · rcases v with _ | s
    · simp [run, sendSnippet, ho]
    · exact absurd ho (h1 s)

/-- Witness for C2: with the network down, the run leaves the file alone,
prints nothing and exits 1. -/
theorem run_primary_failure_no_mutation_witness :
    (run failProvider true (FileState.content "m0") "hi").file = FileState.content "m0" ∧
    (run failProvider true (FileState.content "m0") "hi").output = [] ∧
    (run failProvider true (FileState.content "m0") "hi").exitCode = 1 :=
  run_primary_failure_no_mutation failProvider true (FileState.content "m0") "hi"
    (fun s hcontra => by simp [failProvider, callGPTAPI] at hcontra)

/-- Counterexample to claim C1: when the distillation call fails after the
reply was printed, the run does NOT exit with status zero — the uncaught
rejection ends the process with exit code 1 (reply and on-disk memory are
indeed untouched, but the exit-status conjunct of the claim is false). -/
theorem run_distill_failure_exits_nonzero_cex :
    ¬ ((run distillFailProvider true (FileState.content "m0") "hi").exitCode = 0 ∧
       (run distillFailProvider true (FileState.content "m0") "hi").output.head? = some "ok" ∧
       (run distillFailProvider true (FileState.content "m0") "hi").file =
         FileState.content "m0") := by
  decide

/-- Claim C1 as amended: if the distillation call or the memory save fails
after the primary reply has been emitted, the reply already printed stands as
the first output line and the on-disk memory remains exactly what it was
before the run, but the run exits with status 1 because the failure is an
uncaught exception. -/
theorem run_distill_or_save_failure_reply_stands
    (provider : Nat → FetchOutcome) (writeOk : Bool) (f0 : FileState) (msg a : String)
    (h1 : callGPTAPI (provider 0) = Except.ok (some a))
    (h2 : (∀ s, callGPTAPI (provider 1) ≠ Except.ok (some s)) ∨ writeOk = false) :
    (run provider writeOk f0 msg).exitCode = 1 ∧
    (run provider writeOk f0 msg).file = f0 ∧
    (run provider writeOk f0 msg).output.head? = some (jsTrim a) := by
  rcases ho2 : callGPTAPI (provider 1) with e2 | v2
  · simp [run, sendSnippet, h1, ho2]
  · rcases v2 with _ | s2
    · simp [run, sendSnippet, h1, ho2]
    · rcases h2 with h2 | h2
      · exact absurd ho2 (h2 s2)
      · subst h2
        simp [run, sendSnippet, h1, ho2]

/-- Witness for the amended C1: primary reply `"ok"` delivered, network gone
for the distillation call — exit 1, file untouched, reply still printed. -/
theorem run_distill_or_save_failure_reply_stands_witness :
    (run distillFailProvider true (FileState.content "m0") "hi").exitCode = 1 ∧
    (run distillFailProvider true (FileState.content "m0") "hi").file =
      FileState.content "m0" ∧
    (run distillFailProvider true (FileState.content "m0") "hi").output.head? =
      some "ok" :=
  run_distill_or_save_failure_reply_stands distillFailProvider true
    (FileState.content "m0") "hi" "ok" rfl
    (Or.inl (fun s hcontra => by simp [distillFailProvider, callGPTAPI] at hcontra))

/-- The first provider call of every run is made with the `assist` prompt
built from the loaded memory and the user message (on a fresh history, the
newline-join of the singleton history is the prompt itself). -/
theorem run_first_prompt (provider : Nat → FetchOutcome) (writeOk : Bool)
    (f0 : FileState) (msg : String) :
    (run provider writeOk f0 msg).promptsSent.head? =
      some (assistPrompt (readMemory f0) msg) := by
  rcases ho : callGPTAPI (provider 0) with e | v
  · simp [run, sendSnippet, ho, joinHist, renderEntry, joinSep]
  · rcases v with _ | s
    · simp [run, sendSnippet, ho, joinHist, renderEntry, joinSep]
    · rcases ho2 : callGPTAPI (provider 1) with e2 | v2
      · simp [run, sendSnippet, ho, ho2, joinHist, renderEntry, joinSep]
      · rcases v2 with _ | s2
        · simp [run, sendSnippet, ho, ho2, joinHist, renderEntry, joinSep]
        · cases writeOk <;>
            simp [run, sendSnippet, ho, ho2, joinHist, renderEntry, joinSep]

/-- Claim C5: the prompt of the primary completion call contains the loaded
memory verbatim and the user message verbatim, each under its labeled
section; in particular a stored memory `{"name":"Felix"}` makes the prompt
contain the literal substring `Felix`. -/
theorem run_primary_prompt_embeds_memory_and_message
    (provider : Nat → FetchOutcome) (writeOk : Bool) (f0 : FileState) (msg : String) :
    ∃ p, (run provider writeOk f0 msg).promptsSent.head? = some p ∧
      containsStr p (readMemory f0) ∧
      containsStr p msg ∧
      containsStr p memoryLabel ∧
      containsStr p messageLabel ∧
      (readMemory f0 = "\x7b\"name\":\"Felix\"\x7d" → containsStr p "Felix") := by
  have hmem : containsStr (assistPrompt (readMemory f0) msg) (readMemory f0) :=
    ⟨assistPromptHead ++ (memoryLabel ++ "\n"),
     "\n\n" ++ (messageLabel ++ ("\n" ++ (msg ++ "\n"))),
     by simp [assistPrompt, String.append_assoc]⟩
  refine ⟨assistPrompt (readMemory f0) msg,
    run_first_prompt provider writeOk f0 msg, hmem, ?_, ?_, ?_, ?_⟩
  · exact ⟨assistPromptHead ++ (memoryLabel ++ ("\n" ++ (readMemory f0 ++
      ("\n\n" ++ (messageLabel ++ "\n"))))), "\n",
      by simp [assistPrompt, String.append_assoc]⟩
  · exact ⟨assistPromptHead,
      "\n" ++ (readMemory f0 ++ ("\n\n" ++ (messageLabel ++ ("\n" ++ (msg ++ "\n"))))),
      by simp [assistPrompt, String.append_assoc]⟩
  · exact ⟨assistPromptHead ++ (memoryLabel ++ ("\n" ++ (readMemory f0 ++ "\n\n"))),
      "\n" ++ (msg ++ "\n"),
      by simp [assistPrompt, String.append_assoc]⟩
  · intro hf
    have hFel : containsStr (readMemory f0) "Felix" := by
      rw [hf]
      exact ⟨"\x7b\"name\":\"", "\"\x7d", by decide⟩
    exact containsStr_trans hmem hFel

/-- Witness for C5: with the Felix memory on disk, the primary prompt of the
run contains the literal substring `Felix`. -/
theorem run_primary_prompt_embeds_memory_and_message_witness :
    ∃ p, (run failProvider true (FileState.content "\x7b\"name\":\"Felix\"\x7d")
        "What is my name?").promptsSent.head? = some p ∧
      containsStr p "Felix" := by
  obtain ⟨p, hp, _, _, _, _, hF⟩ :=
    run_primary_prompt_embeds_memory_and_message failProvider true
      (FileState.content "\x7b\"name\":\"Felix\"\x7d") "What is my name?"
  exact ⟨p, hp, hF rfl⟩

/-- Counterexample to claim C6: on an empty store the blob handed to
distillation is NOT derived from `{memory: "{}", ...}` — the default memory
the code loads is `{history:[]}`, not `{}`. -/
theorem run_scenario1_blob_cex :
    ¬ ((run (okProvider "Hi there") true FileState.absent "Hello").output.head? =
         some "Hi there" ∧
       (run (okProvider "Hi there") true FileState.absent "Hello").blobArg =
         some (stringifyNewMemory "\x7b\x7d" "Hello" "Hi there")) := by
  decide

/-- Claim C6 as amended: on an empty store with user message `"Hello"` and a
provider that always replies `"Hi there"`, the run prints `"Hi there"`,
exits 0, and hands distillation the JSON stringification of
`{memory: "{history:[]}", lastUserMessage: "Hello",
lastAssistantResponse: "Hi there"}`, the default memory being `{history:[]}`
rather than `{}`. -/
theorem run_scenario1_behavior :
    (run (okProvider "Hi there") true FileState.absent "Hello").output.head? =
      some "Hi there" ∧
    (run (okProvider "Hi there") true FileState.absent "Hello").blobArg =
      some (stringifyNewMemory defaultMemory "Hello" "Hi there") ∧
    (run (okProvider "Hi there") true FileState.absent "Hello").exitCode = 0 ∧
    (run (okProvider "Hi there") true FileState.absent "Hello").file =
      FileState.content "Hi there" := by
  decide

/-- Counterexample to claim C7: the default value loaded from a fresh store is
not a syntactically valid JSON placeholder and is not `{}`. -/
theorem default_memory_not_valid_json_cex :
    jsonValid (readMemory FileState.absent) = false ∧
    readMemory FileState.absent ≠ "\x7b\x7d" := by
  decide

/-- Claim C7 as amended: loading a fresh or unreadable store never fails and
returns the fixed default `{history:[]}` — a JavaScript-object-style literal
that is not syntactically valid JSON. -/
theorem readMemory_default_and_total :
    readMemory FileState.absent = defaultMemory ∧
    readMemory FileState.unreadable = defaultMemory ∧
    defaultMemory = "\x7bhistory:[]\x7d" ∧
    jsonValid defaultMemory = false := by
  decide

/-- Claim C8: saving a blob and loading it again yields the blob unchanged —
the load/save path applies no reformatting. -/
theorem save_load_roundtrip (m : String) (f : FileState) :
    readMemory (saveMemory m f) = m := rfl

/-- Claim C9: because both calls share one process-global history, the prompt
of the distillation call is the newline-join of the whole prior history — the
assist prompt, the raw (untrimmed) assist reply, and the distillation
instruction wrapping the candidate blob — not the instruction and blob
alone. -/
theorem run_distill_prompt_is_full_history_join
    (provider : Nat → FetchOutcome) (writeOk : Bool) (f0 : FileState) (msg a : String)
    (h1 : callGPTAPI (provider 0) = Except.ok (some a)) :
    (run provider writeOk f0 msg).promptsSent[1]? =
      some (assistPrompt (readMemory f0) msg ++ "\n" ++ a ++ "\n" ++
        optimizePrompt (stringifyNewMemory (readMemory f0) msg (jsTrim a))) := by
  rcases ho2 : callGPTAPI (provider 1) with e2 | v2
  · simp [run, sendSnippet, h1, ho2, joinHist, renderEntry, joinSep,
      String.append_assoc]
  · rcases v2 with _ | s2
    · simp [run, sendSnippet, h1, ho2, joinHist, renderEntry, joinSep,
        String.append_assoc]
    · cases writeOk <;>
        simp [run, sendSnippet, h1, ho2, joinHist, renderEntry, joinSep,
          String.append_assoc]

/-- Witness for C9 at a concrete run: the raw reply `" Hi "` (not its trimmed
form) sits between the assist prompt and the distillation instruction in the
second prompt, while the blob embeds the trimmed reply. -/
theorem run_distill_prompt_is_full_history_join_witness :
    (run (okProvider " Hi ") true FileState.absent "Hello").promptsSent[1]? =
      some (assistPrompt (readMemory FileState.absent) "Hello" ++ "\n" ++ " Hi " ++ "\n" ++
        optimizePrompt (stringifyNewMemory (readMemory FileState.absent) "Hello"
          (jsTrim " Hi "))) :=
  run_distill_prompt_is_full_history_join (okProvider " Hi ") true
    FileState.absent "Hello" " Hi " rfl

end Alors
